import Mathlib

/-!
Verification development for the Synapse backend (student/class-management
API). The definitions below are a shallow embedding of the route handlers,
middleware and utilities of the repository: SQL tables become lists of row
structures, an HTTP response becomes a `Resp` record holding the pieces of
the JSON envelope that the claims observe, and each Express handler becomes
a pure function from its inputs (request body fields, table states, the
clock, the signing secret) to a response together with the updated tables.
-/

/-- Model of a signed JWT as issued by utils/jwt.js `generateToken`:
the payload carries the user id plus issued-at and expiry claims, and the
signature is modelled by recording the secret the token was signed with
(verification compares it against the verifier secret). -/
structure Jwt where
  userId : Nat
  iat : Nat
  exp : Nat
  secret : String
deriving DecidableEq

/-- The observable part of an HTTP response produced through
utils/responceHandler.js: the status code, the `success` flag of the JSON
envelope, the `error` message (for `sendError`), and the `token` field of
the body when a handler returns one (login). Success payload bodies that no
claim inspects (row dumps, confirmation messages) are not recorded. -/
structure Resp where
  status : Nat
  success : Bool
  errorMsg : Option String
  tokenData : Option Jwt
deriving DecidableEq

/-- JS `String.prototype.toLowerCase` on the character list of the string
(the handlers only lowercase ASCII emails). -/
def jsToLower (s : String) : String :=
  ⟨s.data.map Char.toLower⟩

/-- JS `String.prototype.trim`: strip leading and trailing whitespace. -/
def jsTrim (s : String) : String :=
  ⟨((s.data.dropWhile Char.isWhitespace).reverse.dropWhile Char.isWhitespace).reverse⟩

/-- JS `String.prototype.startsWith p`. -/
def jsStartsWith (s p : String) : Bool :=
  p.data.isPrefixOf s.data

/-- utils/responceHandler.js `sendError res message statusCode`. -/
def sendError (message : String) (statusCode : Nat) : Resp :=
  ⟨statusCode, false, some message, none⟩

/-- utils/responceHandler.js `sendSuccess` with a data payload the claims
do not inspect. -/
def sendSuccessMsg (statusCode : Nat) : Resp :=
  ⟨statusCode, true, none, none⟩

/-- `sendSuccess`/`res.json` whose data payload contains a token (login). -/
def sendSuccessToken (statusCode : Nat) (t : Jwt) : Resp :=
  ⟨statusCode, true, none, some t⟩

/-- A row of the `classes` table (the columns the HOC handlers touch). -/
structure ClassRow where
  id : Nat
  hocId : Nat
  className : String
  startTime : Nat
  location : String
  status : String
deriving DecidableEq

/-- `status NOT IN ('cancelled', 'completed')` is the negation of this. -/
def terminalStatus (s : String) : Bool :=
  s == "cancelled" || s == "completed"

/-- The WHERE clause of the guarded UPDATE in routes/HOC.js cancel-class
and reschedule-class: `id = $cid AND hoc_id = $uid AND status NOT IN
('cancelled', 'completed')`. -/
def updGuard (cid uid : Nat) (c : ClassRow) : Bool :=
  c.id == cid && c.hocId == uid && !terminalStatus c.status

/-- routes/HOC.js POST /cancel-class. `classId` is the request body field
after `parseInt` (`none` models NaN); the JS guard `!classIdInt` also
rejects 0. The UPDATE is modelled by mapping the guarded rewrite over the
table; `rowCount` is the number of rows the WHERE clause matched. -/
def cancelClass (db : List ClassRow) (uid : Nat) (classId : Option Nat)
    (reason : String) : Resp × List ClassRow :=
  match classId with
  | none => (sendError "Class ID and Reason are required." 400, db)
  | some cid =>
    if cid == 0 || jsTrim reason == "" then
      (sendError "Class ID and Reason are required." 400, db)
    else
      let updated := db.map fun c =>
        if updGuard cid uid c then { c with status := "cancelled" } else c
      let rowCount := (db.filter (updGuard cid uid)).length
      if rowCount == 0 then
        match db.find? fun c => c.id == cid with
        | none => (sendError "Class not found." 404, updated)
        | some c =>
          if terminalStatus c.status then
            (sendError "Class already completed or cancelled." 400, updated)
          else
            (sendError "You are not authorized to cancel this class." 403, updated)
      else
        (sendSuccessMsg 200, updated)

/-- routes/HOC.js POST /reschedule-class. `newTime` models the body field
through the two JS checks: the outer `Option` is the truthiness test
`!newTime` (absent or empty string), the inner `Option` is the
`new Date(newTime)` parse (`none` models an invalid date). -/
def rescheduleClass (db : List ClassRow) (uid : Nat) (classId : Option Nat)
    (newTime : Option (Option Nat)) (newRoom : String) : Resp × List ClassRow :=
  match classId with
  | none =>
    (sendError "Class ID, New Time (YYYY-MM-DD HH:MM), and New Room are required." 400, db)
  | some cid =>
    match newTime with
    | none =>
      (sendError "Class ID, New Time (YYYY-MM-DD HH:MM), and New Room are required." 400, db)
    | some parsed =>
      if cid == 0 || newRoom == "" then
        (sendError "Class ID, New Time (YYYY-MM-DD HH:MM), and New Room are required." 400, db)
      else
        match parsed with
        | none => (sendError "Invalid new time format. Use \"YYYY-MM-DD HH:MM\"." 400, db)
        | some t =>
          let updated := db.map fun c =>
            if updGuard cid uid c then
              { c with startTime := t, location := newRoom, status := "rescheduled" }
            else c
          let rowCount := (db.filter (updGuard cid uid)).length
          if rowCount == 0 then
            match db.find? fun c => c.id == cid with
            | none => (sendError "Class not found." 404, updated)
            | some c =>
              if terminalStatus c.status then
                (sendError "Cannot reschedule completed or cancelled class." 400, updated)
              else
                (sendError "You are not authorized to reschedule this class." 403, updated)
          else
            (sendSuccessMsg 200, updated)

/-- A row of the `users` table (the columns the auth handlers touch). -/
structure UserRow where
  id : Nat
  fullName : String
  email : String
  passwordHash : String
  department : String
  academicYear : String
  isHoc : Bool
deriving DecidableEq

/-- JS `\S` (not whitespace), restricted to the whitespace characters Lean
knows about; the emails the handlers see are ASCII. -/
def isNonSpace (c : Char) : Bool :=
  !c.isWhitespace

/-- The test of the unanchored regex in the asyncHandler-variant signup of
routes/auth.js. A match of that pattern is a contiguous run of non-space
characters containing a literal at-sign at position `a` with at least one
non-space character before it, a literal dot at a position `d` at least two
past `a`, and at least one non-space character after the dot; `test`
succeeds exactly when such positions exist. -/
def emailRegexTest (s : String) : Bool :=
  let cs := s.toList
  let n := cs.length
  (List.range n).any fun a =>
    (List.range n).any fun d =>
      decide (1 ≤ a) && decide (a + 2 ≤ d) && decide (d + 1 < n) &&
      (cs.getD a ' ' == '@') && (cs.getD d ' ' == '.') &&
      ((List.range' (a - 1) (d + 3 - a)).all fun i => isNonSpace (cs.getD i ' '))

/-- The character class of the anchored email regex in the mysql-variant
signup of routes/auth.js: anything except whitespace and the at-sign. -/
def isLocalChar (c : Char) : Bool :=
  !c.isWhitespace && c != '@'

/-- The test of the anchored regex in the mysql-variant signup: the whole
string is local characters except a single at-sign at position `a` (not
first), with a dot at some position `d` at least two past `a` and at least
one character after it (the dot itself is in the local class, so only the
at-sign is excluded elsewhere). -/
def emailRegexAnchoredTest (s : String) : Bool :=
  let cs := s.toList
  let n := cs.length
  (List.range n).any fun a =>
    (List.range n).any fun d =>
      decide (1 ≤ a) && decide (a + 2 ≤ d) && decide (d + 1 < n) &&
      (cs.getD a ' ' == '@') && (cs.getD d ' ' == '.') &&
      ((List.range n).all fun i => (i == a) || isLocalChar (cs.getD i ' '))

/-- Model of the digest produced by the external bcryptjs library (outside
this repository; specified at the boundary in the design document): a
salted one-way digest, here an opaque tagging of the plaintext so that the
compare below accepts exactly the digest of the entered password. -/
def bcryptHashModel (password : String) : String :=
  "$2a$10$" ++ password

/-- Model of bcryptjs `compare` at the same boundary: it reports whether
the digest is the digest of the entered plaintext, and does not error. -/
def bcryptCompareModel (entered digest : String) : Except Unit Bool :=
  .ok (digest == bcryptHashModel entered)

/-- utils/hash.js `hashPassword`: throws on an empty password, otherwise
salts and hashes through bcryptjs (the model backend does not fail, so the
re-thrown generic hashing error does not arise). -/
def hashPassword (password : String) : Except String String :=
  if password == "" then .error "Password cannot be empty"
  else .ok (bcryptHashModel password)

/-- utils/hash.js `comparePassword`, parameterized by the bcrypt compare
backend `cmp` so that backend failure can be modelled: a falsy (null or
empty) entered password or digest yields `false`, and a backend error is
caught and also yields `false` rather than propagating. -/
def comparePassword (cmp : String → String → Except Unit Bool)
    (entered hashed : Option String) : Bool :=
  match entered, hashed with
  | some e, some h =>
    if e == "" || h == "" then false
    else
      match cmp e h with
      | .ok b => b
      | .error _ => false
  | _, _ => false

/-- utils/jwt.js `generateToken`: throws when the user id is falsy,
otherwise signs a payload carrying the user id with the process secret and
the configured expiry duration. -/
def generateToken (secret : String) (now expiresIn : Nat) (userId : Nat) :
    Except String Jwt :=
  if userId == 0 then .error "User identifier is required to generate a token."
  else .ok ⟨userId, now, now + expiresIn, secret⟩

/-- routes/auth.js POST /signup, asyncHandler variant (the variant wired to
utils/responceHandler.js, which server.js composes). Field checks mirror
the JS truthiness and length guards; the duplicate check and the INSERT
both use the lowercased email; a hashing failure propagates through
asyncHandler to the global 500 handler. Returns the response, the updated
`users` table and the next fresh id. -/
def signupA (db : List UserRow) (nextId : Nat)
    (fullName email password department academicYear : String) :
    Resp × List UserRow × Nat :=
  if fullName == "" || email == "" || password == "" ||
      department == "" || academicYear == "" then
    (sendError "Missing required fields: fullName, email, password, department, and academicYear are required." 400, db, nextId)
  else if !emailRegexTest email then
    (sendError "Invalid email format." 400, db, nextId)
  else if password.length < 6 then
    (sendError "Password must be a string of at least 6 characters." 400, db, nextId)
  else if 0 < (db.filter fun u => u.email == jsToLower email).length then
    (sendError "An account with this email address already exists." 409, db, nextId)
  else
    match hashPassword password with
    | .error _ => (sendError "Internal Server Error" 500, db, nextId)
    | .ok h =>
      (sendSuccessMsg 201,
       db ++ [⟨nextId, fullName, jsToLower email, h, department, academicYear, false⟩],
       nextId + 1)

/-- routes/auth.js POST /login, asyncHandler variant, parameterized by the
bcrypt compare backend. The lookup uses the lowercased email; a missing
user and a failed password comparison produce the same generic 401; token
generation failure propagates to the global 500 handler. -/
def loginA (cmp : String → String → Except Unit Bool) (secret : String)
    (now expiresIn : Nat) (db : List UserRow) (email password : String) : Resp :=
  if email == "" || password == "" then
    sendError "Please provide both email and password." 400
  else
    match db.filter fun u => u.email == jsToLower email with
    | [] => sendError "Invalid email or password." 401
    | user :: _ =>
      if !comparePassword cmp (some password) (some user.passwordHash) then
        sendError "Invalid email or password." 401
      else
        match generateToken secret now expiresIn user.id with
        | .error _ => sendError "Internal Server Error" 500
        | .ok t => sendSuccessToken 200 t

/-- String equality as the mysql-variant signup sees it: MySQL compares
VARCHAR columns under its default accent/case-insensitive collation, so
`WHERE email = ?` matches case-insensitively. -/
def mysqlEmailEq (x y : String) : Bool :=
  jsToLower x == jsToLower y

/-- routes/auth.js POST /signup, mysql variant. Same field checks with its
own (anchored) email regex; the duplicate check compares the raw email
under MySQL collation and answers 400 (not 409); the INSERT stores the raw
email unchanged. The created-user token in its 201 body is not recorded in
`Resp` (no claim inspects it). -/
def signupM (db : List UserRow) (nextId : Nat)
    (fullName email password department academicYear : String) :
    Resp × List UserRow × Nat :=
  if fullName == "" || email == "" || password == "" ||
      department == "" || academicYear == "" then
    (sendError "All fields are required." 400, db, nextId)
  else if !emailRegexAnchoredTest email then
    (sendError "Please provide a valid email address." 400, db, nextId)
  else if password.length < 6 then
    (sendError "Password must be at least 6 characters long." 400, db, nextId)
  else if 0 < (db.filter fun u => mysqlEmailEq u.email email).length then
    (sendError "Email already registered." 400, db, nextId)
  else
    match hashPassword password with
    | .error _ => (sendError "Server error during registration." 500, db, nextId)
    | .ok h =>
      (sendSuccessMsg 201,
       db ++ [⟨nextId, fullName, email, h, department, academicYear, false⟩],
       nextId + 1)

/-- A bearer token as presented on the wire: either a string the JWT
library cannot parse, or a well-formed token. -/
inductive TokenInput
  | malformed
  | wellFormed (t : Jwt)
deriving DecidableEq

/-- The two error names the jsonwebtoken library throws: a signature or
format failure (`JsonWebTokenError`, covering tampering, a wrong secret and
malformed structure) and `TokenExpiredError`. -/
inductive JwtError
  | jsonWebTokenError
  | tokenExpiredError
deriving DecidableEq

/-- jsonwebtoken `verify` at the library boundary: a malformed token or a
signature made with another secret throws `JsonWebTokenError` (the library
checks the signature before the expiry claim); an expired token throws
`TokenExpiredError`; otherwise the decoded user id is returned. -/
def jwtVerify (secret : String) (now : Nat) (tok : TokenInput) :
    Except JwtError Nat :=
  match tok with
  | .malformed => .error .jsonWebTokenError
  | .wellFormed t =>
    if t.secret != secret then .error .jsonWebTokenError
    else if t.exp ≤ now then .error .tokenExpiredError
    else .ok t.userId

/-- The Authorization header of a request: absent, present without the
Bearer scheme (`protect` treats this as no token, while `withAuth` strips
nothing and hands the raw header to the verifier), or a Bearer token. -/
inductive AuthHeader
  | missing
  | notBearer (tok : TokenInput)
  | bearer (tok : TokenInput)

/-- The outcome of an Express middleware: call `next` with an identity
attached to the request, or halt the chain with a response. -/
inductive MwResult (α : Type)
  | next (value : α)
  | halt (resp : Resp)
deriving DecidableEq

/-- middleware/authMiddleware.js `protect`: extract the Bearer token,
verify it, load the user row for the decoded id and attach it; each failure
answers 401, with a message that names the jsonwebtoken error class that
was thrown. -/
def protect (secret : String) (now : Nat) (db : List UserRow)
    (header : AuthHeader) : MwResult UserRow :=
  match header with
  | .bearer tok =>
    match jwtVerify secret now tok with
    | .ok uid =>
      match db.find? fun u => u.id == uid with
      | some u => .next u
      | none => .halt (sendError "Not authorized, user not found." 401)
    | .error .jsonWebTokenError => .halt (sendError "Not authorized, token failed." 401)
    | .error .tokenExpiredError => .halt (sendError "Not authorized, token expired." 401)
  | _ => .halt (sendError "Not authorized, no token provided." 401)

/-- routes/hoc.js `withAuth`: strip the Bearer prefix if present, verify,
and attach the decoded payload (the user id); any verification failure is
caught by one handler answering a single generic 401 message. -/
def withAuth (secret : String) (now : Nat) (header : AuthHeader) : MwResult Nat :=
  match header with
  | .missing => .halt (sendError "Access denied. No token provided." 401)
  | .notBearer tok | .bearer tok =>
    match jwtVerify secret now tok with
    | .ok uid => .next uid
    | .error _ => .halt (sendError "Invalid or expired token." 401)

/-- middleware/authMiddleware.js `hocOnly`: pass only when the attached
user record has `is_hoc` strictly true. -/
def hocOnly (user : UserRow) : MwResult UserRow :=
  if user.isHoc then .next user
  else .halt (sendError "Forbidden: Head of Class privileges required." 403)

/-- A protected route as server.js mounts it (`protect` then the handler).
The boolean records whether the downstream handler ran. -/
def protectedRoute (secret : String) (now : Nat) (db : List UserRow)
    (header : AuthHeader) (handler : UserRow → Resp) : Resp × Bool :=
  match protect secret now db header with
  | .halt r => (r, false)
  | .next u => (handler u, true)

/-- An HOC route as server.js mounts it: `protect`, then `hocOnly`, then
the handler. The boolean records whether the handler ran. -/
def hocRoute (secret : String) (now : Nat) (db : List UserRow)
    (header : AuthHeader) (handler : UserRow → Resp) : Resp × Bool :=
  match protect secret now db header with
  | .halt r => (r, false)
  | .next u =>
    match hocOnly u with
    | .halt r => (r, false)
    | .next v => (handler v, true)

/-- routes/HOC.js GET /test: plain 200 success once the middleware chain
has passed. -/
def hocTestHandler (_u : UserRow) : Resp :=
  sendSuccessMsg 200

/-- routes/HOC.js POST /force-enable-hoc: `UPDATE users SET is_hoc = TRUE
WHERE id = $1`, answering 404 when no row matched. -/
def forceEnableHoc (db : List UserRow) (uid : Nat) : Resp × List UserRow :=
  let updated := db.map fun u => if u.id == uid then { u with isHoc := true } else u
  if (db.filter fun u => u.id == uid).length == 0 then
    (sendError "User not found" 404, updated)
  else
    (sendSuccessMsg 200, updated)

/-- A row of the `push_tokens` table. -/
structure PushTokenRow where
  userId : Nat
  token : String
deriving DecidableEq

/-- A per-message ticket in the Expo push API response: its `status`, its
`message`, and the `error` field of its `details` object when present. -/
structure PushTicket where
  status : String
  message : String
  detailsError : Option String
deriving DecidableEq

/-- An entry of the `errors` array the push helper accumulates (the
`details` object it also records is not inspected by any claim). -/
structure PushError where
  token : String
  message : String
deriving DecidableEq

/-- The value `sendExpoPushNotifications` resolves with. -/
structure SendOutcome where
  success : Bool
  tickets : List PushTicket
  errors : List PushError
deriving DecidableEq

/-- The Expo push endpoint at its HTTP boundary: either a non-ok HTTP
response, or an ok response whose `data` array holds one ticket per sent
message, aligned with the order of the valid tokens. -/
inductive ExpoApiResponse
  | httpError
  | okWith (data : List PushTicket)

/-- routes/notifications.js `removeInvalidPushToken`:
`DELETE FROM push_tokens WHERE token = $1`. -/
def removeInvalidPushToken (store : List PushTokenRow) (token : String) :
    List PushTokenRow :=
  store.filter fun r => r.token != token

/-- The ticket loop of `sendExpoPushNotifications` (`forEach` with index):
an error ticket contributes an error entry, and a `DeviceNotRegistered`
detail fires the token removal for the valid token at the same index. An
index past the token list (JS `undefined`) records an empty token string
and removes nothing, as `DELETE ... WHERE token = NULL` matches no row. -/
def processTickets (validTokens : List String) :
    List PushTicket → Nat → List PushTokenRow → List PushError × List PushTokenRow
  | [], _, store => ([], store)
  | t :: rest, i, store =>
    if t.status == "error" then
      match validTokens[i]? with
      | some tok =>
        let store1 :=
          if t.detailsError == some "DeviceNotRegistered" then
            removeInvalidPushToken store tok
          else store
        let r := processTickets validTokens rest (i + 1) store1
        (⟨tok, t.message⟩ :: r.1, r.2)
      | none =>
        let r := processTickets validTokens rest (i + 1) store
        (⟨"", t.message⟩ :: r.1, r.2)
    else
      processTickets validTokens rest (i + 1) store

/-- routes/notifications.js `sendExpoPushNotifications`: filter the tokens
to the Expo format, short-circuit when none remain, throw only when the
provider call itself fails at the HTTP level, and otherwise walk the
tickets — per-token error tickets are collected (and unregistered devices
removed from the store) without throwing. -/
def sendExpoPushNotifications (store : List PushTokenRow)
    (pushTokens : List String) (provider : ExpoApiResponse) :
    Except String (SendOutcome × List PushTokenRow) :=
  let validTokens := pushTokens.filter fun t => jsStartsWith t "ExponentPushToken["
  if validTokens.isEmpty then .ok (⟨true, [], []⟩, store)
  else
    match provider with
    | .httpError => .error "Failed to communicate with Expo Push Notification service."
    | .okWith data =>
      let r := processTickets validTokens data 0 store
      .ok (⟨r.1.isEmpty, data, r.1⟩, r.2)

/-! Helper lemmas. -/

theorem map_eq_self_of_fixed {α : Type} {f : α → α} {l : List α}
    (h : ∀ a ∈ l, f a = a) : l.map f = l := by
  induction l with
  | nil => rfl
  | cons x xs ih =>
    simp only [List.map_cons]
    rw [h x (List.mem_cons_self x xs), ih fun a ha => h a (List.mem_cons_of_mem x ha)]

theorem guard_update_id {α : Type} {p : α → Bool} {g : α → α} {l : List α}
    (h : ∀ a ∈ l, p a = false) :
    (l.map fun a => if p a then g a else a) = l :=
  map_eq_self_of_fixed fun a ha => by rw [h a ha]; simp

/-- Behaviour of cancel-class when the UPDATE matches no row: the table is
unchanged and the response is decided by the existence check. -/
theorem cancelClass_rowzero (db : List ClassRow) (uid cid : Nat) (reason : String)
    (h0 : ¬cid = 0) (hr : ¬jsTrim reason = "")
    (hguard : ∀ c ∈ db, updGuard cid uid c = false) :
    (cancelClass db uid (some cid) reason).2 = db
    ∧ (db.find? (fun c => c.id == cid) = none →
        (cancelClass db uid (some cid) reason).1 = sendError "Class not found." 404)
    ∧ (∀ c, db.find? (fun c => c.id == cid) = some c →
        (cancelClass db uid (some cid) reason).1 =
          if terminalStatus c.status then sendError "Class already completed or cancelled." 400
          else sendError "You are not authorized to cancel this class." 403) := by
  have hcond : (cid == 0 || jsTrim reason == "") = false := by
    simp [h0, hr]
  have hfilter : db.filter (updGuard cid uid) = [] :=
    List.filter_eq_nil_iff.mpr fun a ha => by simp [hguard a ha]
  have hupd : (db.map fun c => if updGuard cid uid c then { c with status := "cancelled" } else c) = db :=
    guard_update_id hguard
  refine ⟨?_, ?_, ?_⟩
  · simp only [cancelClass, hcond, Bool.false_eq_true, if_false, hfilter,
      List.length_nil, hupd]
    cases hf : db.find? fun c => c.id == cid with
    | none => simp
    | some c => by_cases ht : terminalStatus c.status <;> simp [ht]
  · intro hf
    simp only [cancelClass, hcond, Bool.false_eq_true, if_false, hfilter,
      List.length_nil, hf]
    simp
  · intro c hf
    simp only [cancelClass, hcond, Bool.false_eq_true, if_false, hfilter,
      List.length_nil, hf]
    by_cases ht : terminalStatus c.status <;> simp [ht]

/-- Behaviour of reschedule-class when the UPDATE matches no row. -/
theorem rescheduleClass_rowzero (db : List ClassRow) (uid cid t : Nat) (newRoom : String)
    (h0 : ¬cid = 0) (hroom : ¬newRoom = "")
    (hguard : ∀ c ∈ db, updGuard cid uid c = false) :
    (rescheduleClass db uid (some cid) (some (some t)) newRoom).2 = db
    ∧ (db.find? (fun c => c.id == cid) = none →
        (rescheduleClass db uid (some cid) (some (some t)) newRoom).1 =
          sendError "Class not found." 404)
    ∧ (∀ c, db.find? (fun c => c.id == cid) = some c →
        (rescheduleClass db uid (some cid) (some (some t)) newRoom).1 =
          if terminalStatus c.status then
            sendError "Cannot reschedule completed or cancelled class." 400
          else sendError "You are not authorized to reschedule this class." 403) := by
  have hcond : (cid == 0 || newRoom == "") = false := by
    simp [h0, hroom]
  have hfilter : db.filter (updGuard cid uid) = [] :=
    List.filter_eq_nil_iff.mpr fun a ha => by simp [hguard a ha]
  refine ⟨?_, ?_, ?_⟩
  · simp only [rescheduleClass, hcond, Bool.false_eq_true, if_false, hfilter,
      List.length_nil]
    have hupd : (db.map fun c =>
        if updGuard cid uid c then { c with startTime := t, location := newRoom, status := "rescheduled" }
        else c) = db := guard_update_id hguard
    cases hf : db.find? fun c => c.id == cid with
    | none => simpa using hupd
    | some c => by_cases ht : terminalStatus c.status <;> simp [ht, hupd]
  · intro hf
    simp only [rescheduleClass, hcond, Bool.false_eq_true, if_false, hfilter,
      List.length_nil, hf]
    simp
  · intro c hf
    simp only [rescheduleClass, hcond, Bool.false_eq_true, if_false, hfilter,
      List.length_nil, hf]
    by_cases ht : terminalStatus c.status <;> simp [ht]

/-- The table a cancel-class request leaves behind is either untouched or
exactly the guarded rewrite of the UPDATE. -/
theorem cancelClass_snd_cases (db : List ClassRow) (uid : Nat) (classId : Option Nat)
    (reason : String) :
    (cancelClass db uid classId reason).2 = db ∨
    ∃ cid, classId = some cid ∧
      (cancelClass db uid classId reason).2 =
        db.map fun c => if updGuard cid uid c then { c with status := "cancelled" } else c := by
  cases classId with
  | none => exact Or.inl rfl
  | some cid =>
    simp only [cancelClass]
    split
    · exact Or.inl rfl
    · refine Or.inr ⟨cid, rfl, ?_⟩
      split
      · split
        · simp
        · split <;> simp
      · simp

/-- The table a reschedule-class request leaves behind is either untouched
or exactly the guarded rewrite of the UPDATE. -/
theorem rescheduleClass_snd_cases (db : List ClassRow) (uid : Nat) (classId : Option Nat)
    (newTime : Option (Option Nat)) (newRoom : String) :
    (rescheduleClass db uid classId newTime newRoom).2 = db ∨
    ∃ cid t, classId = some cid ∧
      (rescheduleClass db uid classId newTime newRoom).2 =
        db.map fun c =>
          if updGuard cid uid c then { c with startTime := t, location := newRoom, status := "rescheduled" }
          else c := by
  cases classId with
  | none => exact Or.inl rfl
  | some cid =>
    cases newTime with
    | none => exact Or.inl rfl
    | some parsed =>
      simp only [rescheduleClass]
      split
      · exact Or.inl rfl
      · cases parsed with
        | none => exact Or.inl rfl
        | some t =>
          dsimp only
          refine Or.inr ⟨cid, t, rfl, ?_⟩
          split
          · split
            · simp
            · split <;> simp
          · simp

theorem updGuard_false_of_terminal {cid uid : Nat} {c : ClassRow}
    (ht : terminalStatus c.status = true) : updGuard cid uid c = false := by
  simp [updGuard, ht]

/-! Claim theorems. -/

/-- Claim C1: for every cancel-class or reschedule-class request, a class
whose status is cancelled or completed is never modified; guarded by the
UPDATE WHERE clause, a modified row always moves from a non-terminal status
(scheduled or rescheduled, when the table holds only the four modelled
statuses) to cancelled respectively rescheduled; and a request targeting a
class already terminal leaves the table unchanged and answers an explicit
error response, not a success. -/
theorem claim_C1 (db : List ClassRow) (uid : Nat) (classId : Option Nat)
    (reason : String) (newTime : Option (Option Nat)) (newRoom : String) :
    (∀ (i : Nat) (c : ClassRow), db[i]? = some c → terminalStatus c.status = true →
      (cancelClass db uid classId reason).2[i]? = some c ∧
      (rescheduleClass db uid classId newTime newRoom).2[i]? = some c)
    ∧ ((∀ c ∈ db, c.status = "scheduled" ∨ c.status = "rescheduled" ∨
          c.status = "cancelled" ∨ c.status = "completed") →
       ∀ (i : Nat) (c c' : ClassRow), db[i]? = some c →
        ((cancelClass db uid classId reason).2[i]? = some c' → ¬c' = c →
            (c.status = "scheduled" ∨ c.status = "rescheduled") ∧ c'.status = "cancelled")
        ∧ ((rescheduleClass db uid classId newTime newRoom).2[i]? = some c' → ¬c' = c →
            (c.status = "scheduled" ∨ c.status = "rescheduled") ∧ c'.status = "rescheduled"))
    ∧ (∀ cid, classId = some cid → ¬cid = 0 → ¬jsTrim reason = "" →
        (∀ c ∈ db, c.id = cid → terminalStatus c.status = true) →
        (∃ c ∈ db, c.id = cid) →
        cancelClass db uid classId reason
          = (sendError "Class already completed or cancelled." 400, db))
    ∧ (∀ cid t, classId = some cid → ¬cid = 0 → newTime = some (some t) → ¬newRoom = "" →
        (∀ c ∈ db, c.id = cid → terminalStatus c.status = true) →
        (∃ c ∈ db, c.id = cid) →
        rescheduleClass db uid classId newTime newRoom
          = (sendError "Cannot reschedule completed or cancelled class." 400, db)) := by
  refine ⟨?_, ?_, ?_, ?_⟩
  · -- terminal rows are never modified
    intro i c hc ht
    constructor
    · rcases cancelClass_snd_cases db uid classId reason with h | ⟨cid, _, h⟩
      · rw [h]; exact hc
      · rw [h, List.getElem?_map, hc, Option.map_some', updGuard_false_of_terminal ht]
        simp
    · rcases rescheduleClass_snd_cases db uid classId newTime newRoom with h | ⟨cid, t, _, h⟩
      · rw [h]; exact hc
      · rw [h, List.getElem?_map, hc, Option.map_some', updGuard_false_of_terminal ht]
        simp
  · -- only the allowed transitions occur
    intro hvalid i c c' hc
    have hmem : c ∈ db := List.getElem?_mem hc
    constructor
    · intro hc' hne
      rcases cancelClass_snd_cases db uid classId reason with h | ⟨cid, _, h⟩
      · rw [h, hc] at hc'
        exact absurd (Option.some.inj hc').symm hne
      · rw [h, List.getElem?_map, hc, Option.map_some'] at hc'
        have hc' := Option.some.inj hc'
        by_cases hg : updGuard cid uid c = true
        · rw [if_pos hg] at hc'
          have hterm : terminalStatus c.status = false := by
            have := hg
            simp only [updGuard, Bool.and_eq_true, Bool.not_eq_true'] at this
            exact this.2
          have hstat : ¬c.status = "cancelled" ∧ ¬c.status = "completed" := by
            simpa [terminalStatus] using hterm
          refine ⟨?_, by rw [← hc']⟩
          rcases hvalid c hmem with h1 | h1 | h1 | h1
          · exact Or.inl h1
          · exact Or.inr h1
          · exact absurd h1 hstat.1
          · exact absurd h1 hstat.2
        · rw [if_neg hg] at hc'
          exact absurd hc'.symm hne
    · intro hc' hne
      rcases rescheduleClass_snd_cases db uid classId newTime newRoom with h | ⟨cid, t, _, h⟩
      · rw [h, hc] at hc'
        exact absurd (Option.some.inj hc').symm hne
      · rw [h, List.getElem?_map, hc, Option.map_some'] at hc'
        have hc' := Option.some.inj hc'
        by_cases hg : updGuard cid uid c = true
        · rw [if_pos hg] at hc'
          have hterm : terminalStatus c.status = false := by
            have := hg
            simp only [updGuard, Bool.and_eq_true, Bool.not_eq_true'] at this
            exact this.2
          have hstat : ¬c.status = "cancelled" ∧ ¬c.status = "completed" := by
            simpa [terminalStatus] using hterm
          refine ⟨?_, by rw [← hc']⟩
          rcases hvalid c hmem with h1 | h1 | h1 | h1
          · exact Or.inl h1
          · exact Or.inr h1
          · exact absurd h1 hstat.1
          · exact absurd h1 hstat.2
        · rw [if_neg hg] at hc'
          exact absurd hc'.symm hne
  · -- cancelling a terminal class: table unchanged, explicit error
    rintro cid rfl h0 hr hall ⟨c0, hc0, hid0⟩
    have hguard : ∀ c ∈ db, updGuard cid uid c = false := by
      intro c hcm
      by_cases hid : c.id = cid
      · exact updGuard_false_of_terminal (hall c hcm hid)
      · simp [updGuard, hid]
    obtain ⟨hsnd, _, hsome⟩ := cancelClass_rowzero db uid cid reason h0 hr hguard
    have hfind : ∃ c, db.find? (fun c => c.id == cid) = some c := by
      cases hf : db.find? fun c => c.id == cid with
      | some c => exact ⟨c, rfl⟩
      | none =>
        rw [List.find?_eq_none] at hf
        exact absurd (by simp [hid0]) (hf c0 hc0)
    obtain ⟨c, hf⟩ := hfind
    have hcid : c.id = cid := by simpa using List.find?_some hf
    have hterm := hall c (List.mem_of_find?_eq_some hf) hcid
    have := hsome c hf
    rw [if_pos hterm] at this
    exact Prod.ext this hsnd
  · -- rescheduling a terminal class: table unchanged, explicit error
    rintro cid t rfl h0 rfl hroom hall ⟨c0, hc0, hid0⟩
    have hguard : ∀ c ∈ db, updGuard cid uid c = false := by
      intro c hcm
      by_cases hid : c.id = cid
      · exact updGuard_false_of_terminal (hall c hcm hid)
      · simp [updGuard, hid]
    obtain ⟨hsnd, _, hsome⟩ := rescheduleClass_rowzero db uid cid t newRoom h0 hroom hguard
    have hfind : ∃ c, db.find? (fun c => c.id == cid) = some c := by
      cases hf : db.find? fun c => c.id == cid with
      | some c => exact ⟨c, rfl⟩
      | none =>
        rw [List.find?_eq_none] at hf
        exact absurd (by simp [hid0]) (hf c0 hc0)
    obtain ⟨c, hf⟩ := hfind
    have hcid : c.id = cid := by simpa using List.find?_some hf
    have hterm := hall c (List.mem_of_find?_eq_some hf) hcid
    have := hsome c hf
    rw [if_pos hterm] at this
    exact Prod.ext this hsnd


/-- Witness for claim C1: a concrete completed class whose cancel and
reschedule requests leave the table unchanged and answer the explicit
transition error. -/
theorem claim_C1_witness :
    terminalStatus "completed" = true ∧
    cancelClass [⟨1, 7, "Math", 0, "R1", "completed"⟩] 7 (some 1) "sick"
      = (sendError "Class already completed or cancelled." 400,
         [⟨1, 7, "Math", 0, "R1", "completed"⟩]) ∧
    rescheduleClass [⟨1, 7, "Math", 0, "R1", "completed"⟩] 7 (some 1) (some (some 5)) "R2"
      = (sendError "Cannot reschedule completed or cancelled class." 400,
         [⟨1, 7, "Math", 0, "R1", "completed"⟩]) :=
  ⟨by decide,
   (claim_C1 [⟨1, 7, "Math", 0, "R1", "completed"⟩] 7 (some 1) "sick"
       (some (some 5)) "R2").2.2.1 1 rfl (by decide) (by decide) (by decide)
     ⟨⟨1, 7, "Math", 0, "R1", "completed"⟩, by decide, rfl⟩,
   (claim_C1 [⟨1, 7, "Math", 0, "R1", "completed"⟩] 7 (some 1) "sick"
       (some (some 5)) "R2").2.2.2 1 5 rfl (by decide) rfl (by decide) (by decide)
     ⟨⟨1, 7, "Math", 0, "R1", "completed"⟩, by decide, rfl⟩⟩

/-- Counterexample for claim C2: the responses to a cancel request by a
non-owner do reveal whether the class exists. With the same request, a
table holding class 1 owned by user 2 draws a 403 with an authorization
message, an empty table draws a 404 with a not-found message, and a table
holding a completed class 1 owned by user 2 draws a 400 — a status that is
neither 403 nor 404. The claimed indistinguishability fails at these
concrete inputs. -/
theorem claim_C2_counterexample :
    cancelClass [⟨1, 2, "Math", 0, "R1", "scheduled"⟩] 1 (some 1) "sick"
      = (sendError "You are not authorized to cancel this class." 403,
         [⟨1, 2, "Math", 0, "R1", "scheduled"⟩]) ∧
    cancelClass [] 1 (some 1) "sick" = (sendError "Class not found." 404, []) ∧
    ¬sendError "You are not authorized to cancel this class." 403
       = sendError "Class not found." 404 ∧
    (cancelClass [⟨1, 2, "Math", 0, "R1", "completed"⟩] 1 (some 1) "sick").1.status = 400 ∧
    ¬(400 = 403 ∨ 400 = 404) := by
  refine ⟨by decide, by decide, by decide, by decide, by decide⟩

/-- Claim C2 as amended: a cancel or reschedule request by an authenticated
caller on a class the caller does not own leaves the classes table
unmodified and fails, but its response reveals existence: 404 when no class
has the id, 400 when the class exists but is already terminal, and 403 when
the class exists, is non-terminal and is owned by someone else. -/
theorem claim_C2_amended (db : List ClassRow) (uid cid t : Nat)
    (reason newRoom : String)
    (h0 : ¬cid = 0) (hr : ¬jsTrim reason = "") (hroom : ¬newRoom = "")
    (hown : ∀ c ∈ db, c.id = cid → ¬c.hocId = uid) :
    (cancelClass db uid (some cid) reason).2 = db
    ∧ (rescheduleClass db uid (some cid) (some (some t)) newRoom).2 = db
    ∧ (cancelClass db uid (some cid) reason).1.success = false
    ∧ (rescheduleClass db uid (some cid) (some (some t)) newRoom).1.success = false
    ∧ (db.find? (fun c => c.id == cid) = none →
        (cancelClass db uid (some cid) reason).1 = sendError "Class not found." 404
        ∧ (rescheduleClass db uid (some cid) (some (some t)) newRoom).1
            = sendError "Class not found." 404)
    ∧ (∀ c, db.find? (fun c => c.id == cid) = some c → terminalStatus c.status = true →
        (cancelClass db uid (some cid) reason).1
          = sendError "Class already completed or cancelled." 400
        ∧ (rescheduleClass db uid (some cid) (some (some t)) newRoom).1
            = sendError "Cannot reschedule completed or cancelled class." 400)
    ∧ (∀ c, db.find? (fun c => c.id == cid) = some c → terminalStatus c.status = false →
        (cancelClass db uid (some cid) reason).1
          = sendError "You are not authorized to cancel this class." 403
        ∧ (rescheduleClass db uid (some cid) (some (some t)) newRoom).1
            = sendError "You are not authorized to reschedule this class." 403) := by
  have hguard : ∀ c ∈ db, updGuard cid uid c = false := by
    intro c hcm
    by_cases hid : c.id = cid
    · simp [updGuard, hown c hcm hid]
    · simp [updGuard, hid]
  obtain ⟨hcs, hcn, hcsome⟩ := cancelClass_rowzero db uid cid reason h0 hr hguard
  obtain ⟨hrs, hrn, hrsome⟩ := rescheduleClass_rowzero db uid cid t newRoom h0 hroom hguard
  refine ⟨hcs, hrs, ?_, ?_, ?_, ?_, ?_⟩
  · cases hf : db.find? fun c => c.id == cid with
    | none => rw [hcn hf]; rfl
    | some c =>
      rw [hcsome c hf]
      by_cases ht : terminalStatus c.status <;> simp [ht, sendError]
  · cases hf : db.find? fun c => c.id == cid with
    | none => rw [hrn hf]; rfl
    | some c =>
      rw [hrsome c hf]
      by_cases ht : terminalStatus c.status <;> simp [ht, sendError]
  · intro hf
    exact ⟨hcn hf, hrn hf⟩
  · intro c hf ht
    constructor
    · rw [hcsome c hf, if_pos ht]
    · rw [hrsome c hf, if_pos ht]
  · intro c hf ht
    constructor
    · rw [hcsome c hf, ht]; rfl
    · rw [hrsome c hf, ht]; rfl

/-- Witness for the amended claim C2: a concrete non-owned scheduled class,
whose cancel request draws the 403 and leaves the table unchanged. -/
theorem claim_C2_witness :
    (¬(1 : Nat) = 0) ∧
    (cancelClass [⟨1, 2, "Math", 0, "R1", "scheduled"⟩] 1 (some 1) "sick").2
      = [⟨1, 2, "Math", 0, "R1", "scheduled"⟩] ∧
    (cancelClass [⟨1, 2, "Math", 0, "R1", "scheduled"⟩] 1 (some 1) "sick").1
      = sendError "You are not authorized to cancel this class." 403 :=
  ⟨by decide,
   (claim_C2_amended [⟨1, 2, "Math", 0, "R1", "scheduled"⟩] 1 1 5 "sick" "R2"
      (by decide) (by decide) (by decide) (by decide)).1,
   ((claim_C2_amended [⟨1, 2, "Math", 0, "R1", "scheduled"⟩] 1 1 5 "sick" "R2"
      (by decide) (by decide) (by decide) (by decide)).2.2.2.2.2.2
     ⟨1, 2, "Math", 0, "R1", "scheduled"⟩ (by decide) (by decide)).1⟩

/-- Counterexample for claim C4: the canonical Auth Gate `protect` does not
answer one single generic message for all verification failures — at the
same secret and clock it names the expiry for an expired token but answers
the JsonWebTokenError message for a token signed with another secret, so
the response body reveals which cause occurred. -/
theorem claim_C4_counterexample :
    protect "s" 100 [] (.bearer (.wellFormed ⟨1, 0, 50, "s"⟩))
      = .halt (sendError "Not authorized, token expired." 401)
    ∧ protect "s" 100 [] (.bearer (.wellFormed ⟨1, 0, 200, "other"⟩))
      = .halt (sendError "Not authorized, token failed." 401)
    ∧ protect "s" 100 [] (.bearer .malformed)
      = .halt (sendError "Not authorized, token failed." 401)
    ∧ ¬sendError "Not authorized, token expired." 401
        = sendError "Not authorized, token failed." 401 := by
  refine ⟨by decide, by decide, by decide, by decide⟩

/-- Claim C4 as amended: every token verification failure — expired, wrong
secret, or malformed — draws status 401 from both middlewares; the
`withAuth` middleware of routes/hoc.js answers the one generic invalid-or-
expired message for every cause, while `protect` of
middleware/authMiddleware.js shares one message only between the malformed
and wrong-secret causes (both JsonWebTokenError) and names expiry
distinctly. -/
theorem claim_C4_amended (secret : String) (now : Nat) (db : List UserRow)
    (tok : TokenInput) (e : JwtError)
    (hfail : jwtVerify secret now tok = .error e) :
    (∃ m, protect secret now db (.bearer tok) = .halt (sendError m 401))
    ∧ withAuth secret now (.bearer tok) = .halt (sendError "Invalid or expired token." 401)
    ∧ (e = .jsonWebTokenError →
        protect secret now db (.bearer tok)
          = .halt (sendError "Not authorized, token failed." 401))
    ∧ (e = .tokenExpiredError →
        protect secret now db (.bearer tok)
          = .halt (sendError "Not authorized, token expired." 401)) := by
  refine ⟨?_, ?_, ?_, ?_⟩
  · cases e with
    | jsonWebTokenError =>
      exact ⟨"Not authorized, token failed.", by simp [protect, hfail]⟩
    | tokenExpiredError =>
      exact ⟨"Not authorized, token expired.", by simp [protect, hfail]⟩
  · simp [withAuth, hfail]
  · rintro rfl
    simp [protect, hfail]
  · rintro rfl
    simp [protect, hfail]

/-- Witness for the amended claim C4: a concrete expired token drawing 401
from both middlewares. -/
theorem claim_C4_witness :
    jwtVerify "s" 100 (.wellFormed ⟨1, 0, 50, "s"⟩) = .error .tokenExpiredError ∧
    (∃ m, protect "s" 100 [] (.bearer (.wellFormed ⟨1, 0, 50, "s"⟩))
        = .halt (sendError m 401)) ∧
    withAuth "s" 100 (.bearer (.wellFormed ⟨1, 0, 50, "s"⟩))
      = .halt (sendError "Invalid or expired token." 401) :=
  ⟨rfl,
   (claim_C4_amended "s" 100 [] (.wellFormed ⟨1, 0, 50, "s"⟩) .tokenExpiredError rfl).1,
   (claim_C4_amended "s" 100 [] (.wellFormed ⟨1, 0, 50, "s"⟩) .tokenExpiredError rfl).2.1⟩

theorem jwtVerify_ok {secret : String} {now : Nat} {t : Jwt}
    (hsec : t.secret = secret) (hexp : now < t.exp) :
    jwtVerify secret now (.wellFormed t) = .ok t.userId := by
  simp [jwtVerify, hsec, Nat.not_le.mpr hexp]

theorem forceEnableHoc_snd (db : List UserRow) (uid : Nat) :
    (forceEnableHoc db uid).2
      = db.map fun u => if u.id == uid then { u with isHoc := true } else u := by
  unfold forceEnableHoc
  split <;> rfl

/-- Claim C7: an authenticated request to an HOC-only route by a user whose
freshly loaded record has `is_hoc` false is answered 403 and the handler
never runs; after the force-enable-hoc update has set `is_hoc` true for
that user, the same request passes the role check and receives 200. -/
theorem claim_C7 (secret : String) (now : Nat) (db : List UserRow)
    (t : Jwt) (u : UserRow)
    (hsec : t.secret = secret) (hexp : now < t.exp)
    (hfind : db.find? (fun v => v.id == t.userId) = some u) :
    (u.isHoc = false →
      hocRoute secret now db (.bearer (.wellFormed t)) hocTestHandler
        = (sendError "Forbidden: Head of Class privileges required." 403, false))
    ∧ hocRoute secret now (forceEnableHoc db t.userId).2 (.bearer (.wellFormed t))
        hocTestHandler
      = (sendSuccessMsg 200, true) := by
  have hverify := jwtVerify_ok hsec hexp
  constructor
  · intro hhoc
    simp [hocRoute, protect, hverify, hfind, hocOnly, hhoc]
  · have hid : (u.id == t.userId) = true := by simpa using List.find?_some hfind
    have hcomp : (fun v : UserRow =>
        (if v.id == t.userId then { v with isHoc := true } else v).id == t.userId)
        = fun v : UserRow => v.id == t.userId := by
      funext v
      by_cases hv : v.id == t.userId <;> simp_all
    have hfind2 : ((forceEnableHoc db t.userId).2).find? (fun v => v.id == t.userId)
        = some { u with isHoc := true } := by
      rw [forceEnableHoc_snd, List.find?_map]
      show ((db.find? ((fun v : UserRow => v.id == t.userId) ∘ fun v : UserRow =>
        if v.id == t.userId then { v with isHoc := true } else v)).map fun v =>
          if v.id == t.userId then { v with isHoc := true } else v) = _
      have : ((fun v : UserRow => v.id == t.userId) ∘ fun v : UserRow =>
          if v.id == t.userId then { v with isHoc := true } else v)
          = fun v : UserRow => v.id == t.userId := by
        funext v
        by_cases hv : v.id == t.userId <;> simp_all
      rw [this, hfind, Option.map_some', if_pos hid]
    simp [hocRoute, protect, hverify, hfind2, hocOnly, hocTestHandler]

/-- Witness for claim C7: one concrete non-HOC user drawing the 403, then
the 200 after the role flag is forced on. -/
theorem claim_C7_witness :
    ((0 : Nat) < 50) ∧
    hocRoute "s" 0 [⟨3, "A", "a@b.co", "h", "CS", "Y1", false⟩]
        (.bearer (.wellFormed ⟨3, 0, 50, "s"⟩)) hocTestHandler
      = (sendError "Forbidden: Head of Class privileges required." 403, false) ∧
    hocRoute "s" 0 (forceEnableHoc [⟨3, "A", "a@b.co", "h", "CS", "Y1", false⟩] 3).2
        (.bearer (.wellFormed ⟨3, 0, 50, "s"⟩)) hocTestHandler
      = (sendSuccessMsg 200, true) :=
  ⟨by decide,
   (claim_C7 "s" 0 [⟨3, "A", "a@b.co", "h", "CS", "Y1", false⟩] ⟨3, 0, 50, "s"⟩
      ⟨3, "A", "a@b.co", "h", "CS", "Y1", false⟩ rfl (by decide) (by decide)).1 rfl,
   (claim_C7 "s" 0 [⟨3, "A", "a@b.co", "h", "CS", "Y1", false⟩] ⟨3, 0, 50, "s"⟩
      ⟨3, "A", "a@b.co", "h", "CS", "Y1", false⟩ rfl (by decide) (by decide)).2⟩

/-- Claim C10: a token that verifies (well-formed, unexpired, signed with
the current secret) whose embedded user id matches no users row is rejected
by `protect` with 401 and the downstream handler never runs. -/
theorem claim_C10 (secret : String) (now : Nat) (db : List UserRow) (t : Jwt)
    (handler : UserRow → Resp)
    (hsec : t.secret = secret) (hexp : now < t.exp)
    (hnone : db.find? (fun v => v.id == t.userId) = none) :
    protectedRoute secret now db (.bearer (.wellFormed t)) handler
      = (sendError "Not authorized, user not found." 401, false) := by
  simp [protectedRoute, protect, jwtVerify_ok hsec hexp, hnone]

/-- Witness for claim C10: a concrete valid token over an empty users
table. -/
theorem claim_C10_witness :
    ((0 : Nat) < 50) ∧
    protectedRoute "s" 0 [] (.bearer (.wellFormed ⟨3, 0, 50, "s"⟩)) hocTestHandler
      = (sendError "Not authorized, user not found." 401, false) :=
  ⟨by decide,
   claim_C10 "s" 0 [] ⟨3, 0, 50, "s"⟩ hocTestHandler rfl (by decide) (by decide)⟩

/-- Claim C5: a login with a wrong password draws the identical generic 401
response whether or not a user with that email exists, and the password
comparison utility returns false — rather than throwing — on null input or
on a backend comparison error, so a backend failure is indistinguishable
from a wrong password in the response. -/
theorem claim_C5 (cmp : String → String → Except Unit Bool) (secret : String)
    (now expiresIn : Nat) (db : List UserRow) (email password : String)
    (e h : String) (hemail : ¬email = "") (hpw : ¬password = "") :
    (db.filter (fun u => u.email == jsToLower email) = [] →
      loginA cmp secret now expiresIn db email password
        = sendError "Invalid email or password." 401)
    ∧ (∀ (u : UserRow) (rest : List UserRow),
        db.filter (fun u => u.email == jsToLower email) = u :: rest →
        comparePassword cmp (some password) (some u.passwordHash) = false →
        loginA cmp secret now expiresIn db email password
          = sendError "Invalid email or password." 401)
    ∧ comparePassword cmp none (some h) = false
    ∧ comparePassword cmp (some e) none = false
    ∧ (cmp e h = .error () → comparePassword cmp (some e) (some h) = false) := by
  have hcond : (email == "" || password == "") = false := by
    simp [hemail, hpw]
  refine ⟨?_, ?_, rfl, rfl, ?_⟩
  · intro hfilter
    simp [loginA, hcond, hfilter]
  · intro u rest hfilter hcmp
    simp [loginA, hcond, hfilter, hcmp]
  · intro herr
    by_cases hcase : (e == "" || h == "") = true <;>
      simp [comparePassword, hcase, herr]

/-- Witness for claim C5: over an empty users table — and with a backend
that fails — the login still answers the one generic 401, and the compare
utility returns false instead of surfacing the backend error. -/
theorem claim_C5_witness :
    (([] : List UserRow).filter (fun u => u.email == jsToLower "a@b.co") = []) ∧
    loginA (fun _ _ => (Except.error () : Except Unit Bool)) "s" 0 10 [] "a@b.co" "pw"
      = sendError "Invalid email or password." 401 ∧
    comparePassword (fun _ _ => (Except.error () : Except Unit Bool))
        (some "pw") (some "digest") = false :=
  ⟨rfl,
   (claim_C5 (fun _ _ => (Except.error () : Except Unit Bool)) "s" 0 10 [] "a@b.co" "pw"
      "pw" "digest" (by decide) (by decide)).1 rfl,
   (claim_C5 (fun _ _ => (Except.error () : Except Unit Bool)) "s" 0 10 [] "a@b.co" "pw"
      "pw" "digest" (by decide) (by decide)).2.2.2.2 rfl⟩

theorem emailRegexTest_ne_empty {email : String} (hreg : emailRegexTest email = true) :
    ¬email = "" := by
  intro hcontra
  rw [hcontra] at hreg
  exact absurd hreg (by decide)

theorem ne_empty_of_six_le {password : String} (hpw : 6 ≤ password.length) :
    ¬password = "" := by
  intro hcontra
  rw [hcontra] at hpw
  exact absurd hpw (by decide)

theorem bcryptHashModel_ne_empty (p : String) : ¬bcryptHashModel p = "" := by
  intro hcontra
  have hl := congrArg String.length hcontra
  rw [bcryptHashModel, String.length_append] at hl
  simp at hl
  exact absurd hl.1 (by decide)

/-- A valid signup with a fresh email runs the whole asyncHandler-variant
handler to the 201 and appends exactly one row holding the lowercased email
and the salted digest. -/
theorem signupA_success (db : List UserRow) (nextId : Nat)
    (fullName email password department academicYear : String)
    (hfn : ¬fullName = "") (hdep : ¬department = "") (hay : ¬academicYear = "")
    (hreg : emailRegexTest email = true) (hpw : 6 ≤ password.length)
    (huniq : ∀ u ∈ db, ¬u.email = jsToLower email) :
    signupA db nextId fullName email password department academicYear
      = (sendSuccessMsg 201,
         db ++ [⟨nextId, fullName, jsToLower email, bcryptHashModel password,
                 department, academicYear, false⟩],
         nextId + 1) := by
  have hemail := emailRegexTest_ne_empty hreg
  have hpw0 := ne_empty_of_six_le hpw
  have hfields : (fullName == "" || email == "" || password == "" ||
      department == "" || academicYear == "") = false := by
    simp [hfn, hemail, hpw0, hdep, hay]
  have hfilter : db.filter (fun u => u.email == jsToLower email) = [] :=
    List.filter_eq_nil_iff.mpr fun u hu => by simp [huniq u hu]
  have hhash : hashPassword password = .ok (bcryptHashModel password) := by
    simp [hashPassword, hpw0]
  simp [signupA, hfields, hreg, Nat.not_lt.mpr hpw, hfilter, hhash]

theorem comparePassword_model_roundtrip (p : String) (hp : ¬p = "") :
    comparePassword bcryptCompareModel (some p) (some (bcryptHashModel p)) = true := by
  simp [comparePassword, hp, bcryptHashModel_ne_empty p, bcryptCompareModel]

/-- Claim C6: a valid signup payload (all fields present, well-formed
email, password of length at least six) with a fresh email succeeds with
201, and the subsequent login with the same credentials succeeds with 200
and returns a token that verification accepts for the created user id —
the round trip through hash/compare and token issue/verify. -/
theorem claim_C6 (db : List UserRow) (nextId : Nat)
    (fullName email password department academicYear secret : String)
    (now expiresIn : Nat)
    (hfn : ¬fullName = "") (hdep : ¬department = "") (hay : ¬academicYear = "")
    (hreg : emailRegexTest email = true) (hpw : 6 ≤ password.length)
    (huniq : ∀ u ∈ db, ¬u.email = jsToLower email)
    (hid : ¬nextId = 0) (hexp : 0 < expiresIn) :
    (signupA db nextId fullName email password department academicYear).1
        = sendSuccessMsg 201
    ∧ loginA bcryptCompareModel secret now expiresIn
        (signupA db nextId fullName email password department academicYear).2.1
        email password
      = sendSuccessToken 200 ⟨nextId, now, now + expiresIn, secret⟩
    ∧ jwtVerify secret now (.wellFormed ⟨nextId, now, now + expiresIn, secret⟩)
      = .ok nextId := by
  have hemail := emailRegexTest_ne_empty hreg
  have hpw0 := ne_empty_of_six_le hpw
  have hsignup := signupA_success db nextId fullName email password department
    academicYear hfn hdep hay hreg hpw huniq
  refine ⟨by rw [hsignup], ?_, ?_⟩
  · rw [hsignup]
    have hcond : (email == "" || password == "") = false := by
      simp [hemail, hpw0]
    have hfilter0 : db.filter (fun u => u.email == jsToLower email) = [] :=
      List.filter_eq_nil_iff.mpr fun u hu => by simp [huniq u hu]
    have hfilter : List.filter (fun u : UserRow => u.email == jsToLower email)
        (db ++ [(⟨nextId, fullName, jsToLower email, bcryptHashModel password,
          department, academicYear, false⟩ : UserRow)])
        = [(⟨nextId, fullName, jsToLower email, bcryptHashModel password,
          department, academicYear, false⟩ : UserRow)] := by
      rw [List.filter_append, hfilter0]
      simp
    have hcmp := comparePassword_model_roundtrip password hpw0
    simp [loginA, hcond, hfilter, hcmp, generateToken, hid]
  · exact jwtVerify_ok rfl (show now < now + expiresIn by omega)

/-- Witness for claim C6: a concrete signup and login for one fresh user.
-/
theorem claim_C6_witness :
    emailRegexTest "alice@example.com" = true ∧
    (signupA [] 1 "Alice" "alice@example.com" "secret1" "CS" "Y1").1
      = sendSuccessMsg 201 ∧
    loginA bcryptCompareModel "topsecret" 0 86400
        (signupA [] 1 "Alice" "alice@example.com" "secret1" "CS" "Y1").2.1
        "alice@example.com" "secret1"
      = sendSuccessToken 200 ⟨1, 0, 86400, "topsecret"⟩ ∧
    jwtVerify "topsecret" 0 (.wellFormed ⟨1, 0, 86400, "topsecret"⟩) = .ok 1 :=
  ⟨by decide,
   (claim_C6 [] 1 "Alice" "alice@example.com" "secret1" "CS" "Y1" "topsecret" 0 86400
      (by decide) (by decide) (by decide) (by decide) (by decide)
      (by intro u hu; simp at hu) (by decide) (by decide)).1,
   (claim_C6 [] 1 "Alice" "alice@example.com" "secret1" "CS" "Y1" "topsecret" 0 86400
      (by decide) (by decide) (by decide) (by decide) (by decide)
      (by intro u hu; simp at hu) (by decide) (by decide)).2.1,
   (claim_C6 [] 1 "Alice" "alice@example.com" "secret1" "CS" "Y1" "topsecret" 0 86400
      (by decide) (by decide) (by decide) (by decide) (by decide)
      (by intro u hu; simp at hu) (by decide) (by decide)).2.2⟩

/-- Counterexample for claim C3: the mysql-variant signup rejects a request
reusing an existing email with status 400, not 409 (it does perform no
insert). -/
theorem claim_C3_counterexample :
    (signupM [⟨1, "Bob", "bob@uni.edu", "x", "CS", "Y1", false⟩] 2
        "Bob2" "bob@uni.edu" "hunter22" "CS" "Y1").1
      = sendError "Email already registered." 400
    ∧ (signupM [⟨1, "Bob", "bob@uni.edu", "x", "CS", "Y1", false⟩] 2
        "Bob2" "bob@uni.edu" "hunter22" "CS" "Y1").2.1
      = [⟨1, "Bob", "bob@uni.edu", "x", "CS", "Y1", false⟩]
    ∧ ¬(400 : Nat) = 409 := by
  refine ⟨by decide, by decide, by decide⟩

/-- Claim C3 as amended: a valid signup request whose email is
case-insensitively equal to the email of an existing user performs no
insert in either duplicated handler; the asyncHandler-variant handler
answers 409 (over a table whose stored emails are normalized, as that
handler maintains), while the mysql-variant handler answers 400. -/
theorem claim_C3_amended (db : List UserRow) (nextId : Nat)
    (fullName email password department academicYear : String)
    (hfn : ¬fullName = "") (hdep : ¬department = "") (hay : ¬academicYear = "")
    (hpw : 6 ≤ password.length) :
    ((emailRegexTest email = true) →
      (∀ u ∈ db, jsToLower u.email = u.email) →
      (∃ u ∈ db, jsToLower u.email = jsToLower email) →
      signupA db nextId fullName email password department academicYear
        = (sendError "An account with this email address already exists." 409, db, nextId))
    ∧ ((emailRegexAnchoredTest email = true) →
      (∃ u ∈ db, jsToLower u.email = jsToLower email) →
      signupM db nextId fullName email password department academicYear
        = (sendError "Email already registered." 400, db, nextId)) := by
  have hpw0 := ne_empty_of_six_le hpw
  constructor
  · intro hreg hlow hdup
    have hemail := emailRegexTest_ne_empty hreg
    obtain ⟨u, hu, hue⟩ := hdup
    have hueq : u.email = jsToLower email := by rw [← hlow u hu, hue]
    have hpos : 0 < (db.filter fun v => v.email == jsToLower email).length :=
      List.length_pos.mpr
        (List.ne_nil_of_mem (List.mem_filter.mpr ⟨hu, by simp [hueq]⟩))
    have hfields : (fullName == "" || email == "" || password == "" ||
        department == "" || academicYear == "") = false := by
      simp [hfn, hemail, hpw0, hdep, hay]
    simp [signupA, hfields, hreg, Nat.not_lt.mpr hpw, hpos]
  · intro hreg hdup
    have hemail : ¬email = "" := by
      intro hcontra
      rw [hcontra] at hreg
      exact absurd hreg (by decide)
    obtain ⟨u, hu, hue⟩ := hdup
    have hpos : 0 < (db.filter fun v => mysqlEmailEq v.email email).length :=
      List.length_pos.mpr
        (List.ne_nil_of_mem (List.mem_filter.mpr ⟨hu, by simp [mysqlEmailEq, hue]⟩))
    have hfields : (fullName == "" || email == "" || password == "" ||
        department == "" || academicYear == "") = false := by
      simp [hfn, hemail, hpw0, hdep, hay]
    simp [signupM, hfields, hreg, Nat.not_lt.mpr hpw, hpos]

/-- Witness for the amended claim C3: a case-insensitive duplicate drawing
the 409 from the asyncHandler variant and the 400 from the mysql variant,
with the table unchanged by both. -/
theorem claim_C3_witness :
    emailRegexTest "BOB@uni.edu" = true ∧
    signupA [⟨1, "Bob", "bob@uni.edu", "x", "CS", "Y1", false⟩] 2
        "Bob2" "BOB@uni.edu" "hunter22" "CS" "Y1"
      = (sendError "An account with this email address already exists." 409,
         [⟨1, "Bob", "bob@uni.edu", "x", "CS", "Y1", false⟩], 2) ∧
    signupM [⟨1, "Bob", "bob@uni.edu", "x", "CS", "Y1", false⟩] 2
        "Bob2" "BOB@uni.edu" "hunter22" "CS" "Y1"
      = (sendError "Email already registered." 400,
         [⟨1, "Bob", "bob@uni.edu", "x", "CS", "Y1", false⟩], 2) :=
  ⟨by decide,
   (claim_C3_amended [⟨1, "Bob", "bob@uni.edu", "x", "CS", "Y1", false⟩] 2
      "Bob2" "BOB@uni.edu" "hunter22" "CS" "Y1" (by decide) (by decide) (by decide)
      (by decide)).1 (by decide) (by decide)
     ⟨⟨1, "Bob", "bob@uni.edu", "x", "CS", "Y1", false⟩, by decide, by decide⟩,
   (claim_C3_amended [⟨1, "Bob", "bob@uni.edu", "x", "CS", "Y1", false⟩] 2
      "Bob2" "BOB@uni.edu" "hunter22" "CS" "Y1" (by decide) (by decide) (by decide)
      (by decide)).2 (by decide)
     ⟨⟨1, "Bob", "bob@uni.edu", "x", "CS", "Y1", false⟩, by decide, by decide⟩⟩

/-- Counterexample for claim C8: not every operation that stores an email
uses a single normalized case — at the same mixed-case input the
mysql-variant signup stores the raw email while the asyncHandler-variant
signup stores the lowercased one, and the two stored values differ. -/
theorem claim_C8_counterexample :
    (signupM [] 1 "Alice" "Ali@Ex.co" "hunter22" "CS" "Y1").2.1.map (fun u => u.email)
      = ["Ali@Ex.co"]
    ∧ (signupA [] 1 "Alice" "Ali@Ex.co" "hunter22" "CS" "Y1").2.1.map (fun u => u.email)
      = ["ali@ex.co"]
    ∧ ¬("Ali@Ex.co" : String) = "ali@ex.co" := by
  refine ⟨by decide, by decide, by decide⟩

/-- Claim C8 as amended: the asyncHandler-variant operations are uniformly
normalized — its signup only ever stores the lowercased email, its
duplicate check fires on the lowercased email (so no insert happens when a
normalized duplicate exists), and its login treats two emails equal up to
case identically — but the mysql-variant signup stores the raw,
unnormalized email. -/
theorem claim_C8_amended :
    (∀ (db : List UserRow) (nextId : Nat)
        (fullName email password department academicYear : String) (u : UserRow),
      u ∈ (signupA db nextId fullName email password department academicYear).2.1 →
      u ∈ db ∨ u.email = jsToLower email)
    ∧ (∀ (db : List UserRow) (nextId : Nat)
        (fullName email password department academicYear : String),
      (∃ u ∈ db, u.email = jsToLower email) →
      (signupA db nextId fullName email password department academicYear).2.1 = db)
    ∧ (∀ (cmp : String → String → Except Unit Bool) (secret : String)
        (now expiresIn : Nat) (db : List UserRow) (e1 e2 password : String),
      jsToLower e1 = jsToLower e2 → ¬e1 = "" → ¬e2 = "" →
      loginA cmp secret now expiresIn db e1 password
        = loginA cmp secret now expiresIn db e2 password)
    ∧ (∀ (db : List UserRow) (nextId : Nat)
        (fullName email password department academicYear : String) (u : UserRow),
      u ∈ (signupM db nextId fullName email password department academicYear).2.1 →
      u ∈ db ∨ u.email = email) := by
  refine ⟨?_, ?_, ?_, ?_⟩
  · intro db nextId fullName email password department academicYear u hu
    simp only [signupA] at hu
    split at hu
    · exact Or.inl hu
    · split at hu
      · exact Or.inl hu
      · split at hu
        · exact Or.inl hu
        · split at hu
          · exact Or.inl hu
          · split at hu
            · exact Or.inl hu
            · rcases List.mem_append.mp hu with h | h
              · exact Or.inl h
              · right
                have hrow := List.mem_singleton.mp h
                rw [hrow]
  · intro db nextId fullName email password department academicYear hdup
    obtain ⟨u, hu, hue⟩ := hdup
    have hpos : 0 < (db.filter fun v => v.email == jsToLower email).length :=
      List.length_pos.mpr
        (List.ne_nil_of_mem (List.mem_filter.mpr ⟨hu, by simp [hue]⟩))
    simp only [signupA]
    split
    · rfl
    · split
      · rfl
      · split
        · rfl
        · rfl
  · intro cmp secret now expiresIn db e1 e2 password heq h1 h2
    by_cases hp : password = ""
    · simp [loginA, hp]
    · simp [loginA, h1, h2, hp, heq]
  · intro db nextId fullName email password department academicYear u hu
    simp only [signupM] at hu
    split at hu
    · exact Or.inl hu
    · split at hu
      · exact Or.inl hu
      · split at hu
        · exact Or.inl hu
        · split at hu
          · exact Or.inl hu
          · split at hu
            · exact Or.inl hu
            · rcases List.mem_append.mp hu with h | h
              · exact Or.inl h
              · right
                have hrow := List.mem_singleton.mp h
                rw [hrow]

/-- Witness for the amended claim C8: the login response over one stored
user is identical for two spellings of the email differing only in case. -/
theorem claim_C8_witness :
    jsToLower "A@B.co" = jsToLower "a@b.co" ∧
    loginA bcryptCompareModel "s" 0 10 [⟨1, "A", "a@b.co", "h", "CS", "Y1", false⟩]
        "A@B.co" "pw"
      = loginA bcryptCompareModel "s" 0 10 [⟨1, "A", "a@b.co", "h", "CS", "Y1", false⟩]
        "a@b.co" "pw" :=
  ⟨by decide,
   claim_C8_amended.2.2.1 bcryptCompareModel "s" 0 10
     [⟨1, "A", "a@b.co", "h", "CS", "Y1", false⟩] "A@B.co" "a@b.co" "pw"
     (by decide) (by decide) (by decide)⟩

theorem removeInvalidPushToken_not_mem (store : List PushTokenRow) (tok : String) :
    ∀ r ∈ removeInvalidPushToken store tok, ¬r.token = tok := by
  intro r hr
  have := List.mem_filter.mp hr
  simpa using this.2

theorem processTickets_store_subset (vt : List String) :
    ∀ (ts : List PushTicket) (i : Nat) (store : List PushTokenRow),
      ∀ r ∈ (processTickets vt ts i store).2, r ∈ store := by
  intro ts
  induction ts with
  | nil =>
    intro i store r hr
    simpa [processTickets] using hr
  | cons t rest ih =>
    intro i store r hr
    simp only [processTickets] at hr
    split at hr
    · split at hr
      · rename_i tok _
        split at hr
        · exact List.mem_filter.mp (ih (i + 1) _ r hr) |>.1
        · exact ih (i + 1) store r hr
      · exact ih (i + 1) store r hr
    · exact ih (i + 1) store r hr

theorem processTickets_removes (vt : List String) (tok : String) :
    ∀ (ts : List PushTicket) (j i : Nat) (store : List PushTokenRow) (t : PushTicket),
      ts[j]? = some t → t.status = "error" →
      t.detailsError = some "DeviceNotRegistered" → vt[i + j]? = some tok →
      ∀ r ∈ (processTickets vt ts i store).2, ¬r.token = tok := by
  intro ts
  induction ts with
  | nil =>
    intro j i store t hj
    simp at hj
  | cons t0 rest ih =>
    intro j i store t hj hstatus hdnr hv r hr
    cases j with
    | zero =>
      have ht0 : t0 = t := by simpa using hj
      subst ht0
      simp only [processTickets] at hr
      rw [if_pos (by simp [hstatus])] at hr
      rw [show i + 0 = i from rfl] at hv
      rw [hv] at hr
      simp only at hr
      rw [if_pos (by simp [hdnr])] at hr
      have hr2 := processTickets_store_subset vt rest (i + 1) _ r hr
      exact removeInvalidPushToken_not_mem store tok r hr2
    | succ j' =>
      have hj' : rest[j']? = some t := by simpa using hj
      have hv' : vt[(i + 1) + j']? = some tok := by
        rw [show (i + 1) + j' = i + (j' + 1) by omega]
        exact hv
      simp only [processTickets] at hr
      split at hr
      · split at hr
        · split at hr
          · exact ih j' (i + 1) _ t hj' hstatus hdnr hv' r hr
          · exact ih j' (i + 1) store t hj' hstatus hdnr hv' r hr
        · exact ih j' (i + 1) store t hj' hstatus hdnr hv' r hr
      · exact ih j' (i + 1) store t hj' hstatus hdnr hv' r hr

/-- Claim C9: when the provider answers per-token tickets, a token whose
ticket reports the DeviceNotRegistered error is removed from the
push_tokens store, and per-token failures never make the send operation
throw (it throws only on an HTTP-level provider failure). -/
theorem claim_C9 (store : List PushTokenRow) (pushTokens : List String)
    (data : List PushTicket) (i : Nat) (t : PushTicket) (tok : String)
    (ht : data[i]? = some t) (hstatus : t.status = "error")
    (hdnr : t.detailsError = some "DeviceNotRegistered")
    (htok : (pushTokens.filter fun s => jsStartsWith s "ExponentPushToken[")[i]? = some tok) :
    (∃ out store2,
      sendExpoPushNotifications store pushTokens (.okWith data) = .ok (out, store2)
      ∧ ∀ r ∈ store2, ¬r.token = tok)
    ∧ (∀ (store3 : List PushTokenRow) (pt : List String) (d : List PushTicket),
        ∃ x, sendExpoPushNotifications store3 pt (.okWith d) = .ok x) := by
  constructor
  · have hne : ((pushTokens.filter fun s => jsStartsWith s "ExponentPushToken[").isEmpty) = false := by
      cases hf : pushTokens.filter fun s => jsStartsWith s "ExponentPushToken[" with
      | nil => rw [hf] at htok; simp at htok
      | cons a l => simp
    refine ⟨⟨(processTickets (pushTokens.filter fun s => jsStartsWith s "ExponentPushToken[")
        data 0 store).1.isEmpty, data,
        (processTickets (pushTokens.filter fun s => jsStartsWith s "ExponentPushToken[")
        data 0 store).1⟩,
      (processTickets (pushTokens.filter fun s => jsStartsWith s "ExponentPushToken[")
        data 0 store).2, ?_, ?_⟩
    · simp only [sendExpoPushNotifications, hne, Bool.false_eq_true, if_false]
    · intro r hr
      exact processTickets_removes
        (pushTokens.filter fun s => jsStartsWith s "ExponentPushToken[") tok
        data i 0 store t ht hstatus hdnr (by simpa using htok) r hr
  · intro store3 pt d
    simp only [sendExpoPushNotifications]
    split
    · exact ⟨_, rfl⟩
    · exact ⟨_, rfl⟩

/-- Witness for claim C9: one registered device whose ticket reports
DeviceNotRegistered, removed by the send operation without throwing. -/
theorem claim_C9_witness :
    (["ExponentPushToken[x]"].filter fun s => jsStartsWith s "ExponentPushToken[")[0]?
      = some "ExponentPushToken[x]" ∧
    (∃ out store2,
      sendExpoPushNotifications [⟨5, "ExponentPushToken[x]"⟩] ["ExponentPushToken[x]"]
          (.okWith [⟨"error", "gone", some "DeviceNotRegistered"⟩])
        = .ok (out, store2)
      ∧ ∀ r ∈ store2, ¬r.token = "ExponentPushToken[x]") :=
  ⟨by decide,
   (claim_C9 [⟨5, "ExponentPushToken[x]"⟩] ["ExponentPushToken[x]"]
      [⟨"error", "gone", some "DeviceNotRegistered"⟩] 0
      ⟨"error", "gone", some "DeviceNotRegistered"⟩ "ExponentPushToken[x]"
      rfl rfl rfl (by decide)).1⟩
